import Mathlib

set_option maxHeartbeats 1000000

/-!
Verification development for the voice-agent engine repository
(Banking_Agent, Healthcare_Agent, Retail_Agent/Club_Call_Center_Agent).

The Python modules relevant to the checked properties are embedded
shallowly below:

* a DynamoDB table is a key/value association list keyed by a string id;
  `get_item` is `tblLookup`, `update_item` on an existing key is `tblUpdate`;
* wall-clock instants are natural numbers measured in minutes, so the
  Python comparison `datetime.now() > expiry` becomes `now > expiresAt`
  and `now + timedelta(minutes = m)` becomes `now + m`;
* `random.randint` draws are passed in as explicit parameters;
* Python functions that can raise an uncaught exception return `Option`
  (`none` = the exception propagates) or `Except` where the exception
  value matters.
-/

/-- Association-list model of a single-key DynamoDB table:
`get_item(Key = k)`. -/
def tblLookup {α : Type} : List (String × α) → String → Option α
  | [], _ => none
  | (k, v) :: rest, key => if k = key then some v else tblLookup rest key

/-- Association-list model of `update_item(Key = k, SET ...)` applied to an
existing record: the record stored under `key` is rewritten by `f`, every
other record is untouched. -/
def tblUpdate {α : Type} : List (String × α) → String → (α → α) →
    List (String × α)
  | [], _, _ => []
  | (k, v) :: rest, key, f =>
    (if k = key then (k, f v) else (k, v)) :: tblUpdate rest key f

namespace Banking

/-- `config/constants.py`: `AUTH_LEVEL_1 = "Level1"`. -/
def AUTH_LEVEL_1 : String := "Level1"

/-- `config/constants.py`: `AUTH_LEVEL_2 = "Level2"`. -/
def AUTH_LEVEL_2 : String := "Level2"

/-- `config/constants.py`: `AUTH_LEVEL_3 = "Level3"`. -/
def AUTH_LEVEL_3 : String := "Level3"

/-- `config/constants.py`: `SESSION_TIMEOUT_MINUTES = 30`. -/
def SESSION_TIMEOUT_MINUTES : Nat := 30

/-- `config/constants.py`: `OTP_EXPIRY_MINUTES = 5`. -/
def OTP_EXPIRY_MINUTES : Nat := 5

/-- `config/constants.py`: `AUDIT_RESULT_SUCCESS = "SUCCESS"`. -/
def AUDIT_RESULT_SUCCESS : String := "SUCCESS"

/-- `config/constants.py`: `AUDIT_RESULT_FAILURE = "FAILURE"`. -/
def AUDIT_RESULT_FAILURE : String := "FAILURE"

/-- The session record written by
`BankingAuthenticationManager.create_session` and mutated by the
step-up/verification operations (`core/authentication.py`). -/
structure BankSession where
  sessionId : String
  customerId : String
  phone : String
  authLevel : String
  authFactors : List String
  mfaCompleted : Bool
  otpSent : Bool
  otpCode : Option String
  otpExpiry : Option Nat
  sessionStart : Nat
  lastActivity : Nat
  expiresAt : Nat
deriving DecidableEq

/-- The `Banking_AuthSessions` table. -/
def SessionTable : Type := List (String × BankSession)

instance : DecidableEq SessionTable := by
  unfold SessionTable
  infer_instance

/-- The fields of a `_audit_log` entry that the checked properties
observe (`core/authentication.py`, `_audit_log`). -/
structure BankAudit where
  sessionId : String
  customerId : String
  action : String
  resource : Option String
  result : String
  authLevel : String
deriving DecidableEq

/-- `BankingAuthenticationManager.get_session`: fetch the record and
return `None` when `datetime.now() > expiresAt`. -/
def get_session (tbl : SessionTable) (now : Nat) (sid : String) :
    Option BankSession :=
  match tblLookup tbl sid with
  | none => none
  | some s => if now > s.expiresAt then none else some s

/-- `BankingAuthenticationManager.update_last_activity`: a single
`update_item` that SETs `lastActivity = now` and nothing else. -/
def update_last_activity (tbl : SessionTable) (now : Nat) (sid : String) :
    SessionTable :=
  tblUpdate tbl sid (fun s => { s with lastActivity := now })

/-- Return value of `send_otp` together with the table it leaves behind,
the lines it prints, and the audit entries it writes. -/
structure SendOtpOut where
  success : Bool
  message : String
  otp : Option String
  table : SessionTable
  printed : List String
  audits : List BankAudit
deriving DecidableEq

/-- `BankingAuthenticationManager.send_otp`.  `draw` is the
`random.randint(OTP_MIN_VALUE, OTP_MAX_VALUE)` draw; the code stores
`str(draw)` as `otpCode`, prints it, audits `OTP_SENT`, and also returns
it in the result dictionary under the key `otp`. -/
def send_otp (tbl : SessionTable) (now : Nat) (sid : String) (draw : Nat) :
    SendOtpOut :=
  match get_session tbl now sid with
  | none =>
    { success := false, message := "Session not found or expired",
      otp := none, table := tbl, printed := [], audits := [] }
  | some s =>
    let otp := toString draw
    { success := true,
      message := "OTP sent to " ++ s.phone,
      otp := some otp,
      table := tblUpdate tbl sid (fun u =>
        { u with otpSent := true, otpCode := some otp,
                 otpExpiry := some (now + OTP_EXPIRY_MINUTES) }),
      printed := ["[SECURITY] OTP sent to " ++ s.phone ++ ": " ++ otp],
      audits := [{ sessionId := sid, customerId := s.customerId,
                   action := "OTP_SENT", resource := none,
                   result := AUDIT_RESULT_SUCCESS,
                   authLevel := s.authLevel }] }

/-- Return value of `verify_otp` together with the resulting table and
audit entries. -/
structure VerifyOtpOut where
  success : Bool
  message : String
  table : SessionTable
  audits : List BankAudit
deriving DecidableEq

/-- `BankingAuthenticationManager.verify_otp`.  Returns `none` exactly
where the Python raises (`fromisoformat(None)` when `otpSent` is set but
`otpExpiry` is `None`, a state no code path produces).  On a correct,
unexpired code the session is rewritten with
`authLevel = AUTH_LEVEL_2`, `mfaCompleted = True`,
`authFactors = ["Phone", "OTP"]` unconditionally. -/
def verify_otp (tbl : SessionTable) (now : Nat) (sid provided : String) :
    Option VerifyOtpOut :=
  match get_session tbl now sid with
  | none =>
    some { success := false, message := "Session not found or expired",
           table := tbl, audits := [] }
  | some s =>
    if s.otpSent = false then
      some { success := false, message := "No OTP was sent",
             table := tbl, audits := [] }
    else
      match s.otpExpiry with
      | none => none
      | some otpExp =>
        if now > otpExp then
          some { success := false,
                 message := "OTP expired. Please request a new one.",
                 table := tbl, audits := [] }
        else if some provided ≠ s.otpCode then
          some { success := false, message := "Incorrect OTP",
                 table := tbl,
                 audits := [{ sessionId := sid, customerId := s.customerId,
                              action := "OTP_VERIFY_FAILED", resource := none,
                              result := AUDIT_RESULT_FAILURE,
                              authLevel := s.authLevel }] }
        else
          some { success := true,
                 message := "OTP verified. Authentication upgraded to Level 2.",
                 table := tblUpdate tbl sid (fun u =>
                   { u with authLevel := AUTH_LEVEL_2, mfaCompleted := true,
                            authFactors := ["Phone", "OTP"] }),
                 audits := [{ sessionId := sid, customerId := s.customerId,
                              action := "OTP_VERIFIED", resource := none,
                              result := AUDIT_RESULT_SUCCESS,
                              authLevel := AUTH_LEVEL_2 }] }

/-- `level_hierarchy.get(level, 0)` from
`BankingAuthenticationManager.check_auth_level`. -/
def level_hierarchy (level : String) : Nat :=
  if level = AUTH_LEVEL_1 then 1
  else if level = AUTH_LEVEL_2 then 2
  else if level = AUTH_LEVEL_3 then 3
  else 0

/-- Return value of the manager-level `check_auth_level` (the Python
triple `(authorized, message, current_level)`) together with the table it
leaves behind. -/
structure CheckLevelOut where
  authorized : Bool
  message : String
  currentLevel : Option String
  table : SessionTable
deriving DecidableEq

/-- `BankingAuthenticationManager.check_auth_level`.  On success it also
performs `update_last_activity`; on a Level1-to-Level2 gap it only
returns a message -- the manager itself never issues a code. -/
def check_auth_level (tbl : SessionTable) (now : Nat) (sid required : String) :
    CheckLevelOut :=
  match get_session tbl now sid with
  | none =>
    { authorized := false,
      message := "Session not found or expired. Please authenticate again.",
      currentLevel := none, table := tbl }
  | some s =>
    let current := s.authLevel
    if level_hierarchy required ≤ level_hierarchy current then
      { authorized := true, message := "Authorized at " ++ current,
        currentLevel := some current,
        table := update_last_activity tbl now sid }
    else if required = AUTH_LEVEL_2 ∧ current = AUTH_LEVEL_1 then
      { authorized := false,
        message := "This operation requires multi-factor authentication. Please verify the OTP we are sending to your phone.",
        currentLevel := some current, table := tbl }
    else if required = AUTH_LEVEL_3 then
      if current = AUTH_LEVEL_1 then
        { authorized := false,
          message := "This high-risk operation requires enhanced authentication. Please verify the OTP and answer a security question.",
          currentLevel := some current, table := tbl }
      else
        { authorized := false,
          message := "This high-risk operation requires additional verification. Please answer a security question.",
          currentLevel := some current, table := tbl }
    else
      { authorized := false,
        message := "Insufficient authentication level. Current: " ++ current ++ ", Required: " ++ required,
        currentLevel := some current, table := tbl }

/-- The error dictionary built by `BaseTool.check_auth_level`
(`tools/base_tool.py`). -/
structure ErrDict where
  message : String
  authLevel : Option String
  nextStep : Option String
  requiresStepUp : Bool
deriving DecidableEq

/-- Return value of `BaseTool.check_auth_level` together with the table,
printed lines, and audit entries the call leaves behind. -/
structure ToolAuthOut where
  authorized : Bool
  errorDict : Option ErrDict
  currentLevel : Option String
  table : SessionTable
  printed : List String
  audits : List BankAudit
deriving DecidableEq

/-- `BaseTool.check_auth_level`: delegates to the manager and, when the
gap is exactly Level1 to Level2, unconditionally calls
`auth_manager.send_otp` (issuing a fresh code on every such call) before
returning the `verify_otp` next-step guidance. -/
def tool_check_auth_level (tbl : SessionTable) (now : Nat)
    (currentSessionId : Option String) (required : String) (draw : Nat) :
    ToolAuthOut :=
  match currentSessionId with
  | none =>
    { authorized := false,
      errorDict := some { message := "No active session. Please authenticate first.",
                          authLevel := none, nextStep := none,
                          requiresStepUp := false },
      currentLevel := none, table := tbl, printed := [], audits := [] }
  | some sid =>
    let chk := check_auth_level tbl now sid required
    if chk.authorized then
      { authorized := true, errorDict := none,
        currentLevel := chk.currentLevel, table := chk.table,
        printed := [], audits := [] }
    else if required = AUTH_LEVEL_2 ∧ chk.currentLevel = some AUTH_LEVEL_1 then
      let otpRes := send_otp chk.table now sid draw
      { authorized := false,
        errorDict := some { message := chk.message ++ " " ++ otpRes.message,
                            authLevel := chk.currentLevel,
                            nextStep := some "verify_otp",
                            requiresStepUp := false },
        currentLevel := chk.currentLevel, table := otpRes.table,
        printed := otpRes.printed, audits := otpRes.audits }
    else
      { authorized := false,
        errorDict := some { message := chk.message,
                            authLevel := chk.currentLevel,
                            nextStep := none, requiresStepUp := true },
        currentLevel := chk.currentLevel, table := chk.table,
        printed := [], audits := [] }

end Banking

namespace Sha256

/-!
Executable SHA-256 (FIPS 180-4), used by the Healthcare audit logger
embedding below exactly where `security/audit_logger.py` calls
`hashlib.sha256(hash_data.encode()).hexdigest()`.  All word arithmetic
is on `Nat` reduced modulo `2 ^ 32`; the round constants and the
initial hash value are written in decimal.
-/

/-- Truncate to a 32-bit word. -/
def modw (n : Nat) : Nat := n % 4294967296

/-- Right rotation of a 32-bit word by `n` places. -/
def rotateRight32 (x n : Nat) : Nat :=
  modw (x >>> n ||| x <<< (32 - n))

/-- Bitwise complement within 32 bits. -/
def negw (x : Nat) : Nat := x ^^^ 4294967295

/-- The choose function of the compression round. -/
def chooseFn (x y z : Nat) : Nat :=
  (x &&& y) ^^^ (negw x &&& z)

/-- The majority function of the compression round. -/
def majorityFn (x y z : Nat) : Nat :=
  (x &&& y) ^^^ (x &&& z) ^^^ (y &&& z)

/-- Upper-case sigma 0 (rotations by 2, 13, 22). -/
def sumA0 (x : Nat) : Nat :=
  rotateRight32 x 2 ^^^ rotateRight32 x 13 ^^^ rotateRight32 x 22

/-- Upper-case sigma 1 (rotations by 6, 11, 25). -/
def sumA1 (x : Nat) : Nat :=
  rotateRight32 x 6 ^^^ rotateRight32 x 11 ^^^ rotateRight32 x 25

/-- Lower-case sigma 0 (rotations by 7, 18 and shift by 3). -/
def sumW0 (x : Nat) : Nat :=
  rotateRight32 x 7 ^^^ rotateRight32 x 18 ^^^ x >>> 3

/-- Lower-case sigma 1 (rotations by 17, 19 and shift by 10). -/
def sumW1 (x : Nat) : Nat :=
  rotateRight32 x 17 ^^^ rotateRight32 x 19 ^^^ x >>> 10

/-- The 64 round constants of FIPS 180-4, in decimal. -/
def roundConsts : List Nat :=
  [1116352408, 1899447441, 3049323471, 3921009573, 961987163,
   1508970993, 2453635748, 2870763221, 3624381080, 310598401,
   607225278, 1426881987, 1925078388, 2162078206, 2614888103,
   3248222580, 3835390401, 4022224774, 264347078, 604807628,
   770255983, 1249150122, 1555081692, 1996064986, 2554220882,
   2821834349, 2952996808, 3210313671, 3336571891, 3584528711,
   113926993, 338241895, 666307205, 773529912, 1294757372,
   1396182291, 1695183700, 1986661051, 2177026350, 2456956037,
   2730485921, 2820302411, 3259730800, 3345764771, 3516065817,
   3600352804, 4094571909, 275423344, 430227734, 506948616,
   659060556, 883997877, 958139571, 1322822218, 1537002063,
   1747873779, 1955562222, 2024104815, 2227730452, 2361852424,
   2428436474, 2756734187, 3204031479, 3329325298]

/-- The initial hash value of FIPS 180-4, in decimal. -/
def initHash : List Nat :=
  [1779033703, 3144134277, 1013904242, 2773480762, 1359893119,
   2600822924, 528734635, 1541459225]

/-- UTF-8 encoding of one scalar value as bytes. -/
def utf8EncodeScalar (c : Nat) : List Nat :=
  if c < 128 then [c]
  else if c < 2048 then
    [192 ||| c >>> 6, 128 ||| (c &&& 63)]
  else if c < 65536 then
    [224 ||| c >>> 12, 128 ||| (c >>> 6 &&& 63), 128 ||| (c &&& 63)]
  else
    [240 ||| c >>> 18, 128 ||| (c >>> 12 &&& 63),
     128 ||| (c >>> 6 &&& 63), 128 ||| (c &&& 63)]

/-- Python `s.encode()`: the UTF-8 bytes of a string. -/
def utf8Bytes (s : String) : List Nat :=
  (s.data.map (fun c => utf8EncodeScalar c.toNat)).flatten

/-- Big-endian byte decomposition of a number, fixed width. -/
def beBytes : Nat -> Nat -> List Nat
  | 0, _ => []
  | n + 1, x => beBytes n (x >>> 8) ++ [x &&& 255]

/-- Message padding: append the byte 128, zero bytes up to 56 modulo 64,
and the 8-byte big-endian bit length. -/
def padMessage (msg : List Nat) : List Nat :=
  let zeroCount := (55 + 64 - msg.length % 64) % 64
  msg ++ [128] ++ List.replicate zeroCount 0 ++ beBytes 8 (8 * msg.length)

/-- Split a byte list into 64-byte blocks. -/
def chunks64 (l : List Nat) : List (List Nat) :=
  if l.length = 0 then []
  else (l.take 64) :: chunks64 (l.drop 64)
termination_by l.length
decreasing_by
  simp [List.length_drop]
  omega

/-- Big-endian 32-bit word from four bytes. -/
def wordOfBytes (bs : List Nat) : Nat :=
  bs.foldl (fun a b => a * 256 + b) 0

/-- The sixteen initial schedule words of one 64-byte block. -/
def initialWords (block : List Nat) : List Nat :=
  (List.range 16).map (fun i => wordOfBytes ((block.drop (4 * i)).take 4))

/-- Extend the message schedule by `steps` further words. -/
def extendSched (w : List Nat) : Nat -> List Nat
  | 0 => w
  | steps + 1 =>
    let n := w.length
    extendSched
      (w ++ [modw (sumW1 (w.getD (n - 2) 0) + w.getD (n - 7) 0 +
                   sumW0 (w.getD (n - 15) 0) + w.getD (n - 16) 0)]) steps

/-- One compression round on the eight working variables. -/
def roundStep (s : List Nat) (k w : Nat) : List Nat :=
  let a := s.getD 0 0
  let b := s.getD 1 0
  let c := s.getD 2 0
  let d := s.getD 3 0
  let e := s.getD 4 0
  let f := s.getD 5 0
  let g := s.getD 6 0
  let h := s.getD 7 0
  let t1 := modw (h + sumA1 e + chooseFn e f g + k + w)
  let t2 := modw (sumA0 a + majorityFn a b c)
  [modw (t1 + t2), a, b, c, modw (d + t1), e, f, g]

/-- Compress one 64-byte block into the running hash value. -/
def blockStep (h : List Nat) (block : List Nat) : List Nat :=
  let ws := extendSched (initialWords block) 48
  let s := (roundConsts.zip ws).foldl (fun st kw => roundStep st kw.1 kw.2) h
  (h.zip s).map (fun p => modw (p.1 + p.2))

/-- SHA-256 digest of a byte string, as eight 32-bit words. -/
def digestWords (msg : List Nat) : List Nat :=
  (chunks64 (padMessage msg)).foldl blockStep initHash

/-- Lowercase hexadecimal digit. -/
def hexDigit (n : Nat) : Char :=
  if n < 10 then Char.ofNat (48 + n) else Char.ofNat (87 + n)

/-- Eight-hex-digit rendering of one 32-bit word. -/
def hexWord (x : Nat) : List Char :=
  (List.range 8).map (fun i => hexDigit (x >>> (4 * (7 - i)) &&& 15))

/-- `hashlib.sha256(s.encode()).hexdigest()`. -/
def sha256hex (s : String) : String :=
  String.mk ((digestWords (utf8Bytes s)).map hexWord).flatten

end Sha256

namespace Healthcare

/-- `config/constants.py` (Healthcare): `SESSION_TIMEOUT_MINUTES = 15`. -/
def SESSION_TIMEOUT_MINUTES : Nat := 15

/-- `config/constants.py` (Healthcare): `SESSION_WARNING_MINUTES = 13`. -/
def SESSION_WARNING_MINUTES : Nat := 13

/-- The session record created by `SessionManager.create_session`
(`security/session_manager.py`). -/
structure HSession where
  sessionId : String
  createdAt : Nat
  lastActivity : Nat
  expiresAt : Nat
  warningAt : Nat
  verified : Bool
  verificationLevel : Nat
  userId : Option String
  consentGiven : Bool
  ipAddress : Option String
  active : Bool
  terminatedAt : Option Nat
  terminationReason : Option String
deriving DecidableEq

/-- The Healthcare sessions table. -/
def HTable : Type := List (String × HSession)

instance : DecidableEq HTable := by
  unfold HTable
  infer_instance

/-- `SessionManager.terminate_session` (table effect): SET
`active = False`, `terminatedAt`, `terminationReason`.  The audit write
it also performs is the `AuditLogger.log_event` modeled separately. -/
def terminate_session (tbl : HTable) (now : Nat) (sid reason : String) :
    HTable :=
  tblUpdate tbl sid (fun s =>
    { s with active := false, terminatedAt := some now,
             terminationReason := some reason })

/-- `SessionManager.get_session`: fetch the record; when
`utcnow() > expiresAt` it terminates the session with reason TIMEOUT and
returns `None`.  The pair carries the table after the possible
termination write. -/
def h_get_session (tbl : HTable) (now : Nat) (sid : String) :
    Option HSession × HTable :=
  match tblLookup tbl sid with
  | none => (none, tbl)
  | some s =>
    if now > s.expiresAt then (none, terminate_session tbl now sid "TIMEOUT")
    else (some s, tbl)

/-- `SessionManager.update_activity`: re-read through `get_session`, then
SET `lastActivity = now`, `expiresAt = now + SESSION_TIMEOUT_MINUTES`,
`warningAt = now + SESSION_WARNING_MINUTES`. -/
def update_activity (tbl : HTable) (now : Nat) (sid : String) :
    Bool × HTable :=
  match h_get_session tbl now sid with
  | (none, tbl1) => (false, tbl1)
  | (some _, tbl1) =>
    (true, tblUpdate tbl1 sid (fun s =>
      { s with lastActivity := now,
               expiresAt := now + SESSION_TIMEOUT_MINUTES,
               warningAt := now + SESSION_WARNING_MINUTES }))

/-- Python string interpolation of a nullable value: `None` renders as
the text None, as happens to `user_id` inside the `hash_data` f-string of
`AuditLogger.log_event`. -/
def pyOptStr : Option String → String
  | none => "None"
  | some s => s

/-- Python `user_id or ANONYMOUS`: `None` and the empty string are both
falsy and fall back. -/
def pyOrAnonymous : Option String → String
  | none => "ANONYMOUS"
  | some u => if u = "" then "ANONYMOUS" else u

/-- One record of the Healthcare audit table as written by
`AuditLogger.log_event` (`security/audit_logger.py`). -/
structure HAuditEntry where
  auditLogId : String
  timestamp : String
  eventType : String
  userId : String
  sessionId : String
  action : String
  resourceType : Option String
  resourceId : Option String
  phiAccessed : Bool
  success : Bool
  ipAddress : Option String
  details : Option String
  tamperHash : String
deriving DecidableEq

/-- The string hashed by `AuditLogger.log_event`:
the f-string of `audit_log_id`, `timestamp`, `event_type`, `action`,
`user_id` (raw, so `None` renders as None), `session_id` -- the other
record fields and the previous record take no part. -/
def hash_data (auditLogId timestamp eventType action : String)
    (userId : Option String) (sessionId : String) : String :=
  auditLogId ++ timestamp ++ eventType ++ action ++ pyOptStr userId ++ sessionId

/-- `AuditLogger.log_event`.  `auditLogId` and `timestamp` stand for the
uuid/clock-generated values.  The stored `tamperHash` is the SHA-256 of
`hash_data` alone. -/
def log_event (auditLogId timestamp eventType : String)
    (userId : Option String) (sessionId action : String)
    (resourceType resourceId : Option String)
    (phiAccessed success : Bool)
    (details ipAddress : Option String) : HAuditEntry :=
  { auditLogId := auditLogId, timestamp := timestamp, eventType := eventType,
    userId := pyOrAnonymous userId, sessionId := sessionId, action := action,
    resourceType := resourceType, resourceId := resourceId,
    phiAccessed := phiAccessed, success := success,
    ipAddress := ipAddress, details := details,
    tamperHash := Sha256.sha256hex
      (hash_data auditLogId timestamp eventType action userId sessionId) }

end Healthcare

namespace Club

/-- ASCII lowercasing of one character, as Python `str.lower()` acts on
the ASCII tool names. -/
def asciiToLower (c : Char) : Char :=
  if 65 ≤ c.toNat ∧ c.toNat ≤ 90 then Char.ofNat (c.toNat + 32) else c

/-- The tool-name normalization line shared by
`Club_Call_Center_Agent/core/tool_processor.py` and
`Banking_Agent/core/tool_processor.py`:
`tool_name.lower().replace(" ", "")` -- lowercase every character, then
delete every space. -/
def normalizeToolName (s : String) : String :=
  String.mk ((s.data.map asciiToLower).filter (fun c => c.toNat ≠ 32))

/-- The eight tool instances of `CallCenterToolProcessor`. -/
inductive ClubTool where
  | verifyMember
  | checkStoreHours
  | checkInventory
  | checkCurbside
  | scheduleAppointment
  | checkSpecialty
  | createCakeOrder
  | checkAppointment
deriving DecidableEq

/-- The `tool_handlers` dictionary of `CallCenterToolProcessor._run_tool`,
keys verbatim: the store-hours handler is reachable through the key
checkstorehours-with-a-space and the misspelled key
checkstorehoorstool. -/
def tool_handlers : List (String × ClubTool) :=
  [("verifymembertool", ClubTool.verifyMember),
   ("checkstorehours tool", ClubTool.checkStoreHours),
   ("checkstorehoorstool", ClubTool.checkStoreHours),
   ("checkinventorytool", ClubTool.checkInventory),
   ("checkcurbsideordertool", ClubTool.checkCurbside),
   ("scheduleappointmenttool", ClubTool.scheduleAppointment),
   ("checkspecialtyordertool", ClubTool.checkSpecialty),
   ("createcakeordertool", ClubTool.createCakeOrder),
   ("checkappointmenttool", ClubTool.checkAppointment)]

/-- Routing outcome of `CallCenterToolProcessor._run_tool`: either the
handler the dictionary lookup selects, or the Unsupported-tool error
result built from the raw (un-normalized) tool name. -/
inductive ClubRouted where
  | handled (t : ClubTool)
  | unsupported (msg : String)
deriving DecidableEq

/-- `CallCenterToolProcessor._run_tool`, routing level: normalize, look
up, and fall back to the Unsupported-tool error dictionary. -/
def club_route_tool (toolName : String) : ClubRouted :=
  match tblLookup tool_handlers (normalizeToolName toolName) with
  | some t => ClubRouted.handled t
  | none => ClubRouted.unsupported ("Unsupported tool: " ++ toolName)

/-- A tool dictionary result: a normal payload or a structured
error-dictionary result (a returned value, not a raised exception). -/
inductive ToolOutcome where
  | payload (data : String)
  | errorResult (msg : String)
deriving DecidableEq

/-- `CallCenterToolProcessor._run_tool` with the handler executed:
`exec t` is `run_in_executor(None, handler.execute, content)` -- its
`Except.error` is an exception propagating to the awaiting caller, which
`_run_tool` does not catch. -/
def club_run_tool (exec : ClubTool → Except String ToolOutcome)
    (toolName : String) : Except String ToolOutcome :=
  match tblLookup tool_handlers (normalizeToolName toolName) with
  | some t => exec t
  | none => Except.ok (ToolOutcome.errorResult ("Unsupported tool: " ++ toolName))

/-- The tool-result protocol frames sent by
`BedrockStreamManager._execute_tool_and_send_result`. -/
inductive ClubSend where
  | toolStart (contentName toolUseId : String)
  | toolResult (contentName : String) (result : ToolOutcome)
  | toolContentEnd (contentName : String)
deriving DecidableEq

/-- `BedrockStreamManager._execute_tool_and_send_result`: await the tool,
send start/result/end; any exception is caught at this boundary and
converted into the structured Tool-execution-failed error result, which
is sent instead -- the coroutine never re-raises. -/
def club_execute_tool (exec : ClubTool → Except String ToolOutcome)
    (toolName toolUseId contentName : String) : List ClubSend :=
  match club_run_tool exec toolName with
  | Except.ok result =>
    [ClubSend.toolStart contentName toolUseId,
     ClubSend.toolResult contentName result,
     ClubSend.toolContentEnd contentName]
  | Except.error e =>
    [ClubSend.toolStart contentName toolUseId,
     ClubSend.toolResult contentName
       (ToolOutcome.errorResult ("Tool execution failed: " ++ e)),
     ClubSend.toolContentEnd contentName]

/-- Does `pat` occur as a contiguous run of `l`?  (Python `in` on
strings, char-list level.) -/
def startsWithChars : List Char → List Char → Bool
  | [], _ => true
  | _ :: _, [] => false
  | p :: ps, c :: cs => p == c && startsWithChars ps cs

/-- Occurrence of `pat` anywhere in `l`. -/
def hasSubChars (pat : List Char) : List Char → Bool
  | [] => startsWithChars pat []
  | c :: cs => startsWithChars pat (c :: cs) || hasSubChars pat cs

/-- The interruption marker `_process_responses` looks for inside a
textOutput frame. -/
def interruptedMarker : String := "\x7b \"interrupted\" : true \x7d"

/-- The inbound logical frames `_process_responses` dispatches on. -/
inductive ClubEvent where
  | textOutput (content : String)
  | audioOutput (data : Nat)
  | toolUse (name toolUseId : String)
  | contentEndTool
  | otherEvent
deriving DecidableEq

/-- The mutable state of `BedrockStreamManager` + `AudioStreamer` that
the interruption/playback/dispatch paths touch: the output audio queue,
the `barge_in` flag, the latest toolUse bookkeeping, the
`pending_tool_tasks` map (as the list of spawned, unsettled dispatches),
and the chunks already written to the output device. -/
structure ClubStreamState where
  audioOutputQueue : List Nat
  bargeIn : Bool
  toolName : String
  toolUseId : String
  pendingToolTasks : List (String × String)
  played : List Nat
deriving DecidableEq

/-- One iteration of the `_process_responses` event pump.  Every branch
is constant-work bookkeeping: a textOutput frame containing the
interruption marker only sets `barge_in`; an audioOutput frame enqueues;
a toolUse frame records name/id; the TOOL contentEnd frame calls
`handle_tool_request`, which `asyncio.create_task`s the execution and
registers it in `pending_tool_tasks` -- the pump never awaits it. -/
def club_step (st : ClubStreamState) : ClubEvent → ClubStreamState
  | ClubEvent.textOutput content =>
    if hasSubChars interruptedMarker.data content.data then
      { st with bargeIn := true }
    else st
  | ClubEvent.audioOutput d =>
    { st with audioOutputQueue := st.audioOutputQueue ++ [d] }
  | ClubEvent.toolUse n tid => { st with toolName := n, toolUseId := tid }
  | ClubEvent.contentEndTool =>
    { st with pendingToolTasks :=
        st.pendingToolTasks ++ [(st.toolName, st.toolUseId)] }
  | ClubEvent.otherEvent => st

/-- The pump over a whole inbound event sequence. -/
def club_pump (st : ClubStreamState) (events : List ClubEvent) :
    ClubStreamState :=
  events.foldl club_step st

/-- One iteration of `AudioStreamer.play_output_audio`: when `barge_in`
is set, drain the whole output queue with `get_nowait` and reset the
flag (touching nothing else); otherwise play the head chunk. -/
def play_output_step (st : ClubStreamState) : ClubStreamState :=
  if st.bargeIn then { st with audioOutputQueue := [], bargeIn := false }
  else
    match st.audioOutputQueue with
    | [] => st
    | c :: rest =>
      { st with audioOutputQueue := rest, played := st.played ++ [c] }

/-- Settlement of the oldest spawned dispatch: the task body
`_execute_tool_and_send_result` runs to completion and
`_handle_tool_task_completion` removes it from `pending_tool_tasks`. -/
def complete_first_task (exec : ClubTool → Except String ToolOutcome)
    (st : ClubStreamState) : ClubStreamState × List ClubSend :=
  match st.pendingToolTasks with
  | [] => (st, [])
  | (n, tid) :: rest =>
    ({ st with pendingToolTasks := rest }, club_execute_tool exec n tid tid)

/-- Per-event processing steps of the Club pump: one step for every
frame, whatever the handler would cost, because tool execution is
spawned, never awaited inline. -/
def club_start_times : List ClubEvent → Nat → List Nat
  | [], _ => []
  | _ :: rest, t => t :: club_start_times rest (t + 1)

end Club

namespace Banking

/-- The 21 keys of the `self.tools` dictionary built by
`BankingToolProcessor._initialize_tools` (the normalized tool-name
constants of `config/constants.py`). -/
def bankingToolKeys : List String :=
  ["authenticatetool", "verifyotptool", "stepupauthenticationtool",
   "checkbalancetool", "viewrecenttransactionstool", "searchtransactionstool",
   "requeststatementtool", "reportlostcardtool", "freezecardtool",
   "unfreezecardtool", "checkreplacementstatustool", "disputechargetool",
   "clarifymerchanttool", "internaltransfertool", "checkzellestatustool",
   "setupbillpaytool", "stoppaymenttool", "explainpendingtool",
   "reportfraudtool", "checkdisputestatustool", "explainprovisionalcredittool"]

/-- `BankingToolProcessor._run_tool`: normalize, look the instance up,
and run `tool_instance.execute` in the executor with no try/except --
an exception from `exec` propagates to the awaiting caller.  An unknown
name returns the structured Unsupported-tool error dictionary. -/
def banking_run_tool (exec : String → Except String Club.ToolOutcome)
    (toolName : String) : Except String Club.ToolOutcome :=
  let tool := Club.normalizeToolName toolName
  if bankingToolKeys.contains tool then exec tool
  else Except.ok (Club.ToolOutcome.errorResult ("Unsupported tool: " ++ toolName))

/-- The inbound logical frames of the Banking
`BedrockStreamManager.process_stream_events` pump. -/
inductive BankEvent where
  | audioOutput (data : Nat)
  | toolUse (name toolUseId : String)
  | otherEvent
deriving DecidableEq

/-- Processing steps one pump iteration takes before the loop reaches the
next inbound event: the toolUse branch awaits
`tool_processor.process_tool_async` inline, so the handler's whole cost
is spent inside the iteration; every other branch is constant work. -/
def banking_event_steps (cost : String → Nat) : BankEvent → Nat
  | BankEvent.toolUse n _ => 1 + cost n
  | _ => 1

/-- Start time of each inbound event's processing under the Banking pump:
strictly sequential, each event starts when the previous iteration (tool
handler included) has finished. -/
def banking_start_times (cost : String → Nat) :
    List BankEvent → Nat → List Nat
  | [], _ => []
  | e :: rest, t => t :: banking_start_times cost rest (t + banking_event_steps cost e)

/-- The Banking pump with results: on a toolUse frame the pump awaits
`process_tool_async` inline; an exception raised there is uncaught in
`process_stream_events`, so it aborts the async-for loop -- the
remaining events are never processed and no result frame is sent for
the faulting invocation. -/
def banking_pump_sends (exec : String → Except String Club.ToolOutcome) :
    List BankEvent → Except String (List (String × Club.ToolOutcome))
  | [] => Except.ok []
  | BankEvent.toolUse name tid :: rest =>
    match banking_run_tool exec name with
    | Except.error e => Except.error e
    | Except.ok r =>
      match banking_pump_sends exec rest with
      | Except.error e => Except.error e
      | Except.ok sends => Except.ok ((tid, r) :: sends)
  | _ :: rest => banking_pump_sends exec rest

end Banking

/-!
Concrete fixtures: session tables, random draws, handler behaviours and
event sequences used to evaluate the embedded operations at specific
inputs.
-/

/-- Level-3 banking session holding a live, unexpired possession code. -/
def bkSessionL3 : Banking.BankSession :=
  { sessionId := "SESSION-1", customerId := "CUST-1", phone := "5551234567",
    authLevel := Banking.AUTH_LEVEL_3,
    authFactors := ["Phone", "OTP", "Knowledge"],
    mfaCompleted := true, otpSent := true, otpCode := some "123456",
    otpExpiry := some 100, sessionStart := 0, lastActivity := 0,
    expiresAt := 30 }

/-- Table holding only `bkSessionL3`. -/
def bkTableL3 : Banking.SessionTable := [("SESSION-1", bkSessionL3)]

/-- The successful `verify_otp` output on `bkTableL3` at minute 10. -/
def c1outVal : Banking.VerifyOtpOut :=
  match Banking.verify_otp bkTableL3 10 "SESSION-1" "123456" with
  | some out => out
  | none => { success := false, message := "", table := [], audits := [] }

/-- The `authLevel` stored under `sid` in a banking table. -/
def bkLevelOf (tbl : Banking.SessionTable) (sid : String) : Option String :=
  (tblLookup tbl sid).map Banking.BankSession.authLevel

/-- Fresh Level-1 banking session with no code issued yet. -/
def bkSessionL1 : Banking.BankSession :=
  { sessionId := "SESSION-4", customerId := "CUST-4", phone := "5550001111",
    authLevel := Banking.AUTH_LEVEL_1, authFactors := ["Phone"],
    mfaCompleted := false, otpSent := false, otpCode := none,
    otpExpiry := none, sessionStart := 0, lastActivity := 0, expiresAt := 30 }

/-- Table holding only `bkSessionL1`. -/
def bkTableL1 : Banking.SessionTable := [("SESSION-4", bkSessionL1)]

/-- First `BaseTool.check_auth_level` call on the fresh Level-1 session,
requiring Level 2, with OTP draw 111111. -/
def c4call1 : Banking.ToolAuthOut :=
  Banking.tool_check_auth_level bkTableL1 1 (some "SESSION-4")
    Banking.AUTH_LEVEL_2 111111

/-- Second identical check one minute later, with OTP draw 222222. -/
def c4call2 : Banking.ToolAuthOut :=
  Banking.tool_check_auth_level c4call1.table 2 (some "SESSION-4")
    Banking.AUTH_LEVEL_2 222222

/-- The stored `otpCode` under `sid` in a banking table. -/
def bkOtpOf (tbl : Banking.SessionTable) (sid : String) :
    Option (Option String) :=
  (tblLookup tbl sid).map Banking.BankSession.otpCode

/-- Banking session whose expiry is strictly in the past at minute 31. -/
def bkTableC3After : Banking.SessionTable :=
  Banking.update_last_activity bkTableL1 20 "SESSION-4"

/-- Healthcare session fixture. -/
def hSession1 : Healthcare.HSession :=
  { sessionId := "SES-10", createdAt := 0, lastActivity := 0,
    expiresAt := 15, warningAt := 13, verified := false,
    verificationLevel := 0, userId := none, consentGiven := false,
    ipAddress := none, active := true, terminatedAt := none,
    terminationReason := none }

/-- Table holding only `hSession1`. -/
def hTable1 : Healthcare.HTable := [("SES-10", hSession1)]

/-- Two Healthcare audit entries identical in the six hashed inputs and
different in `resourceId`, `phiAccessed`, `success` and `details`. -/
def c2entry1 : Healthcare.HAuditEntry :=
  Healthcare.log_event "AUDIT-20260101-abc" "2026-01-01T00:00:00Z"
    "PHI_ACCESS" (some "PAT-1") "SES-1" "READ"
    (some "MedicalRecord") (some "REC-1") true true none none

/-- Same hashed inputs as `c2entry1`, mutated elsewhere. -/
def c2entry2 : Healthcare.HAuditEntry :=
  Healthcare.log_event "AUDIT-20260101-abc" "2026-01-01T00:00:00Z"
    "PHI_ACCESS" (some "PAT-1") "SES-1" "READ"
    (some "MedicalRecord") (some "REC-2") false false
    (some "tampered") none

/-- A uniformly slow tool handler: five scheduler steps. -/
def c6cost5 : String → Nat := fun _ => 5

/-- A free tool handler. -/
def c6cost0 : String → Nat := fun _ => 0

/-- A toolUse frame followed by an audio frame on the Banking pump. -/
def c6events : List Banking.BankEvent :=
  [Banking.BankEvent.toolUse "internaltransfertool" "t1",
   Banking.BankEvent.audioOutput 7]

/-- The same two frames on the Club pump. -/
def c6clubEvents : List Club.ClubEvent :=
  [Club.ClubEvent.toolUse "internaltransfertool" "t1",
   Club.ClubEvent.audioOutput 7]

/-- Executor behaviour for the Banking registry: the balance tool raises,
everything else returns a payload. -/
def c7exec : String → Except String Club.ToolOutcome := fun t =>
  if t = "checkbalancetool" then Except.error "boom"
  else Except.ok (Club.ToolOutcome.payload "ok")

/-- Two tool invocations on the Banking pump, the first of which
raises. -/
def c7events : List Banking.BankEvent :=
  [Banking.BankEvent.toolUse "CheckBalanceTool" "t1",
   Banking.BankEvent.toolUse "FreezeCardTool" "t2"]

/-- A Club executor whose every handler raises. -/
def c7clubExec : Club.ClubTool → Except String Club.ToolOutcome :=
  fun _ => Except.error "boom"

/-- A Club executor whose every handler returns a payload. -/
def c8exec : Club.ClubTool → Except String Club.ToolOutcome :=
  fun _ => Except.ok (Club.ToolOutcome.payload "result")

/-- Pristine Club stream state. -/
def c8init : Club.ClubStreamState :=
  { audioOutputQueue := [], bargeIn := false, toolName := "",
    toolUseId := "", pendingToolTasks := [], played := [] }

/-- Barge-in scenario of the spec: a dispatch is spawned, three audio
chunks are buffered, then a textOutput frame carries the interruption
marker. -/
def c8events : List Club.ClubEvent :=
  [Club.ClubEvent.toolUse "CheckStoreHoorsTool" "t1",
   Club.ClubEvent.contentEndTool,
   Club.ClubEvent.audioOutput 1,
   Club.ClubEvent.audioOutput 2,
   Club.ClubEvent.audioOutput 3,
   Club.ClubEvent.textOutput
     ("speech \x7b \"interrupted\" : true \x7d tail")]

/-- State after pumping the barge-in scenario. -/
def c8st1 : Club.ClubStreamState := Club.club_pump c8init c8events

/-- State after the next playback iteration (the flush). -/
def c8st2 : Club.ClubStreamState := Club.play_output_step c8st1

/-- Decidable equality of `Except` outcomes, used to evaluate the
dispatcher embeddings on concrete handler behaviours. -/
instance {α β : Type} [DecidableEq α] [DecidableEq β] :
    DecidableEq (Except α β) := fun x y =>
  match x, y with
  | Except.ok a, Except.ok b =>
    if h : a = b then isTrue (by rw [h])
    else isFalse (fun hc => h (by injection hc))
  | Except.ok _, Except.error _ => isFalse (fun hc => Except.noConfusion hc)
  | Except.error _, Except.ok _ => isFalse (fun hc => Except.noConfusion hc)
  | Except.error e, Except.error f =>
    if h : e = f then isTrue (by rw [h])
    else isFalse (fun hc => h (by injection hc))

/-!
Shared lemmas about the store model and the authentication operations.
-/

/-- Looking up the updated key returns the rewritten record. -/
theorem tblLookup_tblUpdate_self {α : Type} (tbl : List (String × α))
    (key : String) (f : α → α) :
    tblLookup (tblUpdate tbl key f) key = (tblLookup tbl key).map f := by
  induction tbl with
  | nil => rfl
  | cons p rest ih =>
    obtain ⟨k, v⟩ := p
    by_cases h : k = key
    · subst h
      simp only [tblUpdate, if_pos rfl]
      simp only [tblLookup, if_pos rfl]
      rfl
    · simp only [tblUpdate, if_neg h]
      simp only [tblLookup, if_neg h]
      exact ih

/-- A successful lookup of a live record makes `get_session` return it. -/
theorem bk_get_session_some (tbl : Banking.SessionTable) (now : Nat)
    (sid : String) (s : Banking.BankSession)
    (h1 : tblLookup tbl sid = some s) (h2 : ¬ now > s.expiresAt) :
    Banking.get_session tbl now sid = some s := by
  simp [Banking.get_session, h1, h2]

/-- `get_session` only returns records that are present and live. -/
theorem bk_get_session_inv (tbl : Banking.SessionTable) (now : Nat)
    (sid : String) (s : Banking.BankSession)
    (h : Banking.get_session tbl now sid = some s) :
    tblLookup tbl sid = some s ∧ ¬ now > s.expiresAt := by
  unfold Banking.get_session at h
  cases hl : tblLookup tbl sid with
  | none =>
    rw [hl] at h
    exact Option.noConfusion h
  | some s0 =>
    rw [hl] at h
    by_cases he : now > s0.expiresAt
    · simp only [if_pos he] at h
      exact Option.noConfusion h
    · simp only [if_neg he] at h
      injection h with h
      subst h
      exact ⟨rfl, he⟩

/-- Full description of a successful `send_otp` call. -/
theorem bk_send_otp_spec (tbl : Banking.SessionTable) (now : Nat)
    (sid : String) (draw : Nat) (s : Banking.BankSession)
    (h1 : tblLookup tbl sid = some s) (h2 : ¬ now > s.expiresAt) :
    Banking.send_otp tbl now sid draw =
      { success := true,
        message := "OTP sent to " ++ s.phone,
        otp := some (toString draw),
        table := tblUpdate tbl sid (fun u =>
          { u with otpSent := true, otpCode := some (toString draw),
                   otpExpiry := some (now + Banking.OTP_EXPIRY_MINUTES) }),
        printed := ["[SECURITY] OTP sent to " ++ s.phone ++ ": " ++ toString draw],
        audits := [{ sessionId := sid, customerId := s.customerId,
                     action := "OTP_SENT", resource := none,
                     result := Banking.AUDIT_RESULT_SUCCESS,
                     authLevel := s.authLevel }] } := by
  unfold Banking.send_otp
  rw [bk_get_session_some tbl now sid s h1 h2]

/-- A successful association-list lookup exhibits a member pair. -/
theorem tblLookup_mem_pair {α : Type} (key : String) (v : α) :
    ∀ tbl : List (String × α), tblLookup tbl key = some v → (key, v) ∈ tbl := by
  intro tbl
  induction tbl with
  | nil => intro h; exact absurd h (by simp [tblLookup])
  | cons p rest ih =>
    obtain ⟨k, w⟩ := p
    intro h
    by_cases hk : k = key
    · subst hk
      simp only [tblLookup, if_pos rfl] at h
      injection h with h
      subst h
      exact List.mem_cons_self _ _
    · simp only [tblLookup, if_neg hk] at h
      exact List.mem_cons_of_mem _ (ih h)

/-!
Claim theorems.
-/

/-- C2, counterexample: two audit records written by
`AuditLogger.log_event` that differ in `resourceId`, `phiAccessed`,
`success` and `details` carry the identical stored integrity token, so
mutating those fields of a historical record is not detectable, and the
token involves no previous-record token at all. -/
theorem claim_C2_counterexample :
    c2entry1.tamperHash = c2entry2.tamperHash
    ∧ c2entry1.resourceId ≠ c2entry2.resourceId
    ∧ c2entry1.phiAccessed ≠ c2entry2.phiAccessed
    ∧ c2entry1.success ≠ c2entry2.success
    ∧ c2entry1.details ≠ c2entry2.details :=
  ⟨rfl, by decide, by decide, by decide, by decide⟩

/-- C2, amended: the stored `tamperHash` is the SHA-256 of the
concatenation of the record's own `auditLogId`, `timestamp`, `eventType`,
`action`, raw `user_id` rendering and `sessionId` only -- it is not
chained to any previous record, and every record field outside those six
inputs can change without changing the token. -/
theorem claim_C2_amended :
    ∀ (aId ts et act : String) (uid : Option String) (sid : String)
      (rt1 ri1 : Option String) (phi1 su1 : Bool) (d1 ip1 : Option String)
      (rt2 ri2 : Option String) (phi2 su2 : Bool) (d2 ip2 : Option String),
      (Healthcare.log_event aId ts et uid sid act rt1 ri1 phi1 su1 d1 ip1).tamperHash
        = Sha256.sha256hex (Healthcare.hash_data aId ts et act uid sid)
      ∧ (Healthcare.log_event aId ts et uid sid act rt1 ri1 phi1 su1 d1 ip1).tamperHash
        = (Healthcare.log_event aId ts et uid sid act rt2 ri2 phi2 su2 d2 ip2).tamperHash := by
  intro aId ts et act uid sid rt1 ri1 phi1 su1 d1 ip1 rt2 ri2 phi2 su2 d2 ip2
  exact ⟨rfl, rfl⟩

/-- C5: a stored session whose `expiresAt` lies strictly in the past is
invisible through `get_session` in both the Banking manager and the
Healthcare manager; the expiry test happens inside `get_session`
itself. -/
theorem claim_C5 :
    (∀ (tbl : Banking.SessionTable) (now : Nat) (sid : String)
       (s : Banking.BankSession),
       tblLookup tbl sid = some s → now > s.expiresAt →
       Banking.get_session tbl now sid = none)
    ∧ (∀ (tbl : Healthcare.HTable) (now : Nat) (sid : String)
         (s : Healthcare.HSession),
         tblLookup tbl sid = some s → now > s.expiresAt →
         (Healthcare.h_get_session tbl now sid).1 = none) := by
  constructor
  · intro tbl now sid s h1 h2
    simp [Banking.get_session, h1, h2]
  · intro tbl now sid s h1 h2
    simp [Healthcare.h_get_session, h1, h2]

/-- C5, witness: both `get_session` embeddings evaluated on concrete
expired records. -/
theorem claim_C5_witness :
    tblLookup bkTableL1 "SESSION-4" = some bkSessionL1
    ∧ (31 : Nat) > bkSessionL1.expiresAt
    ∧ Banking.get_session bkTableL1 31 "SESSION-4" = none
    ∧ tblLookup hTable1 "SES-10" = some hSession1
    ∧ (100 : Nat) > hSession1.expiresAt
    ∧ (Healthcare.h_get_session hTable1 100 "SES-10").1 = none :=
  ⟨by decide, by decide,
   claim_C5.1 bkTableL1 31 "SESSION-4" bkSessionL1 (by decide) (by decide),
   by decide, by decide,
   claim_C5.2 hTable1 100 "SES-10" hSession1 (by decide) (by decide)⟩

/-- C9: every successful `send_otp` call returns the freshly stored
plaintext possession code in the result dictionary's `otp` field and
prints it to standard output -- the secret equals the session's new
`otpCode` verbatim. -/
theorem claim_C9 :
    ∀ (tbl : Banking.SessionTable) (now : Nat) (sid : String)
      (s : Banking.BankSession) (draw : Nat),
      tblLookup tbl sid = some s → ¬ now > s.expiresAt →
      (Banking.send_otp tbl now sid draw).success = true
      ∧ (Banking.send_otp tbl now sid draw).otp = some (toString draw)
      ∧ (tblLookup (Banking.send_otp tbl now sid draw).table sid).map
          Banking.BankSession.otpCode = some (some (toString draw))
      ∧ (Banking.send_otp tbl now sid draw).printed
          = ["[SECURITY] OTP sent to " ++ s.phone ++ ": " ++ toString draw] := by
  intro tbl now sid s draw h1 h2
  have hs := bk_send_otp_spec tbl now sid draw s h1 h2
  rw [hs]
  refine ⟨rfl, rfl, ?_, rfl⟩
  rw [tblLookup_tblUpdate_self, h1]
  rfl

/-- C9, witness: `send_otp` on a live Level-1 session with draw
123456. -/
theorem claim_C9_witness :
    tblLookup bkTableL1 "SESSION-4" = some bkSessionL1
    ∧ ¬ (1 : Nat) > bkSessionL1.expiresAt
    ∧ ((Banking.send_otp bkTableL1 1 "SESSION-4" 123456).success = true
       ∧ (Banking.send_otp bkTableL1 1 "SESSION-4" 123456).otp
           = some (toString 123456)
       ∧ (tblLookup (Banking.send_otp bkTableL1 1 "SESSION-4" 123456).table
           "SESSION-4").map Banking.BankSession.otpCode
           = some (some (toString 123456))
       ∧ (Banking.send_otp bkTableL1 1 "SESSION-4" 123456).printed
           = ["[SECURITY] OTP sent to " ++ bkSessionL1.phone ++ ": "
               ++ toString 123456]) :=
  ⟨by decide, by decide,
   claim_C9 bkTableL1 1 "SESSION-4" bkSessionL1 123456 (by decide) (by decide)⟩

/-- A live Healthcare lookup makes `get_session` return the record and
leave the table untouched. -/
theorem h_get_session_live (tbl : Healthcare.HTable) (now : Nat)
    (sid : String) (s : Healthcare.HSession)
    (h1 : tblLookup tbl sid = some s) (h2 : ¬ now > s.expiresAt) :
    Healthcare.h_get_session tbl now sid = (some s, tbl) := by
  simp [Healthcare.h_get_session, h1, h2]

/-- Full description of a successful Healthcare `update_activity`. -/
theorem h_update_activity_spec (tbl : Healthcare.HTable) (now : Nat)
    (sid : String) (s : Healthcare.HSession)
    (h1 : tblLookup tbl sid = some s) (h2 : ¬ now > s.expiresAt) :
    Healthcare.update_activity tbl now sid =
      (true, tblUpdate tbl sid (fun u =>
        { u with lastActivity := now,
                 expiresAt := now + Healthcare.SESSION_TIMEOUT_MINUTES,
                 warningAt := now + Healthcare.SESSION_WARNING_MINUTES })) := by
  unfold Healthcare.update_activity
  rw [h_get_session_live tbl now sid s h1 h2]

/-- C1, counterexample: on a live Level-3 session holding a valid
possession code, a successful `verify_otp` stores `authLevel = Level2`,
strictly below the previous level -- the trust level decreased, and the
result is not `max(current, target)`. -/
theorem claim_C1_counterexample :
    Banking.verify_otp bkTableL3 10 "SESSION-1" "123456" = some c1outVal
    ∧ c1outVal.success = true
    ∧ bkLevelOf bkTableL3 "SESSION-1" = some Banking.AUTH_LEVEL_3
    ∧ bkLevelOf c1outVal.table "SESSION-1" = some Banking.AUTH_LEVEL_2
    ∧ Banking.level_hierarchy Banking.AUTH_LEVEL_2
        < Banking.level_hierarchy Banking.AUTH_LEVEL_3 := by
  decide

/-- C1, amended: every successful `verify_otp` rewrites the session with
`authLevel = Level2`, `mfaCompleted = true` and
`authFactors = ["Phone", "OTP"]` regardless of the level it held before,
so a Level-1 session is upgraded but a Level-3 session is downgraded:
the trust level is not monotone and the `max(current, target)` rule does
not hold. -/
theorem claim_C1_amended :
    ∀ (tbl : Banking.SessionTable) (now : Nat) (sid provided : String)
      (out : Banking.VerifyOtpOut),
      Banking.verify_otp tbl now sid provided = some out →
      out.success = true →
      ∃ s, tblLookup tbl sid = some s
        ∧ tblLookup out.table sid =
            some { s with authLevel := Banking.AUTH_LEVEL_2,
                          mfaCompleted := true,
                          authFactors := ["Phone", "OTP"] } := by
  intro tbl now sid provided out h1 h2
  unfold Banking.verify_otp at h1
  cases hg : Banking.get_session tbl now sid with
  | none =>
    simp only [hg] at h1
    injection h1 with h1
    rw [← h1] at h2
    simp at h2
  | some s =>
    obtain ⟨hl, _⟩ := bk_get_session_inv tbl now sid s hg
    simp only [hg] at h1
    split at h1
    · injection h1 with h1
      rw [← h1] at h2
      simp at h2
    · split at h1
      · exact Option.noConfusion h1
      · split at h1
        · injection h1 with h1
          rw [← h1] at h2
          simp at h2
        · split at h1
          · injection h1 with h1
            rw [← h1] at h2
            simp at h2
          · injection h1 with h1
            refine ⟨s, hl, ?_⟩
            have ht : out.table = tblUpdate tbl sid (fun u =>
                { u with authLevel := Banking.AUTH_LEVEL_2,
                         mfaCompleted := true,
                         authFactors := ["Phone", "OTP"] }) := by
              rw [← h1]
            rw [ht, tblLookup_tblUpdate_self, hl]
            rfl

/-- C1, witness: the amended theorem applied to the Level-3 fixture. -/
theorem claim_C1_witness :
    Banking.verify_otp bkTableL3 10 "SESSION-1" "123456" = some c1outVal
    ∧ c1outVal.success = true
    ∧ ∃ s, tblLookup bkTableL3 "SESSION-1" = some s
        ∧ tblLookup c1outVal.table "SESSION-1" =
            some { s with authLevel := Banking.AUTH_LEVEL_2,
                          mfaCompleted := true,
                          authFactors := ["Phone", "OTP"] } :=
  ⟨by decide, by decide,
   claim_C1_amended bkTableL3 10 "SESSION-1" "123456" c1outVal
     (by decide) (by decide)⟩

/-- C3, counterexample: the Banking `update_last_activity` touch at
minute 20 leaves `expiresAt` at its old value 30 instead of
`now + timeout = 50`, breaking the `expiresAt = lastActivity + timeout`
invariant. -/
theorem claim_C3_counterexample :
    (tblLookup bkTableC3After "SESSION-4").map Banking.BankSession.expiresAt
      = some 30
    ∧ (tblLookup bkTableC3After "SESSION-4").map
        Banking.BankSession.lastActivity = some 20
    ∧ (30 : Nat) ≠ 20 + Banking.SESSION_TIMEOUT_MINUTES := by
  decide

/-- C3, amended: the Healthcare `update_activity` touch behaves as the
claim states -- it sets `expiresAt = now + timeout`, resets `warningAt`,
keeps `expiresAt = lastActivity + timeout`, and a later touch never
reduces `expiresAt`; the Banking `update_last_activity` touch instead
rewrites only `lastActivity` and leaves `expiresAt` unchanged. -/
theorem claim_C3_amended :
    (∀ (tbl : Healthcare.HTable) (now : Nat) (sid : String)
       (s : Healthcare.HSession),
       tblLookup tbl sid = some s → ¬ now > s.expiresAt →
       (Healthcare.update_activity tbl now sid).1 = true
       ∧ tblLookup (Healthcare.update_activity tbl now sid).2 sid =
           some { s with lastActivity := now,
                         expiresAt := now + Healthcare.SESSION_TIMEOUT_MINUTES,
                         warningAt := now + Healthcare.SESSION_WARNING_MINUTES })
    ∧ (∀ (tbl : Healthcare.HTable) (now1 now2 : Nat) (sid : String)
         (s : Healthcare.HSession),
         tblLookup tbl sid = some s → ¬ now1 > s.expiresAt →
         now1 ≤ now2 → ¬ now2 > now1 + Healthcare.SESSION_TIMEOUT_MINUTES →
         (tblLookup (Healthcare.update_activity
             (Healthcare.update_activity tbl now1 sid).2 now2 sid).2 sid).map
           Healthcare.HSession.expiresAt
           = some (now2 + Healthcare.SESSION_TIMEOUT_MINUTES)
         ∧ now1 + Healthcare.SESSION_TIMEOUT_MINUTES
             ≤ now2 + Healthcare.SESSION_TIMEOUT_MINUTES)
    ∧ (∀ (tbl : Banking.SessionTable) (now : Nat) (sid : String)
         (s : Banking.BankSession),
         tblLookup tbl sid = some s →
         tblLookup (Banking.update_last_activity tbl now sid) sid =
           some { s with lastActivity := now }) := by
  refine ⟨?_, ?_, ?_⟩
  · intro tbl now sid s h1 h2
    rw [h_update_activity_spec tbl now sid s h1 h2]
    refine ⟨rfl, ?_⟩
    rw [tblLookup_tblUpdate_self, h1]
    rfl
  · intro tbl now1 now2 sid s h1 h2 hmono hlive
    have hu1 := h_update_activity_spec tbl now1 sid s h1 h2
    have hl1 : tblLookup (Healthcare.update_activity tbl now1 sid).2 sid =
        some { s with lastActivity := now1,
                      expiresAt := now1 + Healthcare.SESSION_TIMEOUT_MINUTES,
                      warningAt := now1 + Healthcare.SESSION_WARNING_MINUTES } := by
      rw [hu1, tblLookup_tblUpdate_self, h1]
      rfl
    have hu2 := h_update_activity_spec (Healthcare.update_activity tbl now1 sid).2
      now2 sid _ hl1 hlive
    refine ⟨?_, Nat.add_le_add_right hmono _⟩
    rw [hu2, tblLookup_tblUpdate_self, hl1]
    rfl
  · intro tbl now sid s h1
    unfold Banking.update_last_activity
    rw [tblLookup_tblUpdate_self, h1]
    rfl

/-- C3, witness: the amended theorem applied to the Healthcare fixture
touched at minutes 5 and 8 and to the Banking fixture. -/
theorem claim_C3_witness :
    tblLookup hTable1 "SES-10" = some hSession1
    ∧ ¬ (5 : Nat) > hSession1.expiresAt
    ∧ ((Healthcare.update_activity hTable1 5 "SES-10").1 = true
       ∧ tblLookup (Healthcare.update_activity hTable1 5 "SES-10").2 "SES-10" =
           some { hSession1 with
                  lastActivity := 5,
                  expiresAt := 5 + Healthcare.SESSION_TIMEOUT_MINUTES,
                  warningAt := 5 + Healthcare.SESSION_WARNING_MINUTES })
    ∧ ((tblLookup (Healthcare.update_activity
           (Healthcare.update_activity hTable1 5 "SES-10").2 8 "SES-10").2
           "SES-10").map Healthcare.HSession.expiresAt
         = some (8 + Healthcare.SESSION_TIMEOUT_MINUTES)
       ∧ 5 + Healthcare.SESSION_TIMEOUT_MINUTES
           ≤ 8 + Healthcare.SESSION_TIMEOUT_MINUTES)
    ∧ tblLookup (Banking.update_last_activity bkTableL1 20 "SESSION-4")
        "SESSION-4" = some { bkSessionL1 with lastActivity := 20 } :=
  ⟨by decide, by decide,
   claim_C3_amended.1 hTable1 5 "SES-10" hSession1 (by decide) (by decide),
   claim_C3_amended.2.1 hTable1 5 8 "SES-10" hSession1 (by decide) (by decide)
     (by decide) (by decide),
   claim_C3_amended.2.2 bkTableL1 20 "SESSION-4" bkSessionL1 (by decide)⟩

/-- C4, counterexample: two consecutive `BaseTool.check_auth_level`
calls on the same fresh Level-1 session each issue a possession code;
the second call overwrites the first stored `otpCode` and a second
OTP_SENT audit entry is written, so the step-up request is not
idempotent. -/
theorem claim_C4_counterexample :
    bkOtpOf c4call1.table "SESSION-4" = some (some "111111")
    ∧ bkOtpOf c4call2.table "SESSION-4" = some (some "222222")
    ∧ (some "222222" : Option String) ≠ some "111111"
    ∧ (c4call1.audits ++ c4call2.audits).map Banking.BankAudit.action
        = ["OTP_SENT", "OTP_SENT"]
    ∧ c4call1.errorDict.map Banking.ErrDict.nextStep
        = some (some "verify_otp") := by
  decide

/-- On a live Level-1 session, requiring Level 2 takes the manager's
step-up branch: unauthorized, the multi-factor message, table
untouched. -/
theorem bk_check_level_stepup (tbl : Banking.SessionTable) (now : Nat)
    (sid : String) (s : Banking.BankSession)
    (h1 : tblLookup tbl sid = some s) (h2 : ¬ now > s.expiresAt)
    (h3 : s.authLevel = Banking.AUTH_LEVEL_1) :
    Banking.check_auth_level tbl now sid Banking.AUTH_LEVEL_2 =
      { authorized := false,
        message := "This operation requires multi-factor authentication. Please verify the OTP we are sending to your phone.",
        currentLevel := some Banking.AUTH_LEVEL_1, table := tbl } := by
  unfold Banking.check_auth_level
  rw [bk_get_session_some tbl now sid s h1 h2]
  simp [h3, Banking.level_hierarchy, Banking.AUTH_LEVEL_1,
    Banking.AUTH_LEVEL_2, Banking.AUTH_LEVEL_3]

/-- C4, amended: every `BaseTool.check_auth_level` call that finds a
live Level-1 session and requires Level 2 is refused with next step
`verify_otp` and, as a side effect, unconditionally generates and
stores a fresh possession code (overwriting any pending one) and writes
one OTP_SENT audit entry -- n such calls issue n codes. -/
theorem claim_C4_amended :
    ∀ (tbl : Banking.SessionTable) (now : Nat) (sid : String)
      (s : Banking.BankSession) (draw : Nat),
      tblLookup tbl sid = some s → ¬ now > s.expiresAt →
      s.authLevel = Banking.AUTH_LEVEL_1 →
      (Banking.tool_check_auth_level tbl now (some sid)
          Banking.AUTH_LEVEL_2 draw).authorized = false
      ∧ (Banking.tool_check_auth_level tbl now (some sid)
          Banking.AUTH_LEVEL_2 draw).errorDict =
          some { message := "This operation requires multi-factor authentication. Please verify the OTP we are sending to your phone."
                   ++ " " ++ ("OTP sent to " ++ s.phone),
                 authLevel := some Banking.AUTH_LEVEL_1,
                 nextStep := some "verify_otp", requiresStepUp := false }
      ∧ (tblLookup (Banking.tool_check_auth_level tbl now (some sid)
            Banking.AUTH_LEVEL_2 draw).table sid).map
          Banking.BankSession.otpCode = some (some (toString draw))
      ∧ (Banking.tool_check_auth_level tbl now (some sid)
          Banking.AUTH_LEVEL_2 draw).audits.map Banking.BankAudit.action
          = ["OTP_SENT"] := by
  intro tbl now sid s draw h1 h2 h3
  have hchk := bk_check_level_stepup tbl now sid s h1 h2 h3
  have hotp := bk_send_otp_spec tbl now sid draw s h1 h2
  simp [Banking.tool_check_auth_level, hchk, hotp,
    tblLookup_tblUpdate_self, h1]

/-- C4, witness: the amended theorem applied to the fresh Level-1
fixture with draw 654321. -/
theorem claim_C4_witness :
    tblLookup bkTableL1 "SESSION-4" = some bkSessionL1
    ∧ ¬ (1 : Nat) > bkSessionL1.expiresAt
    ∧ bkSessionL1.authLevel = Banking.AUTH_LEVEL_1
    ∧ ((Banking.tool_check_auth_level bkTableL1 1 (some "SESSION-4")
          Banking.AUTH_LEVEL_2 654321).authorized = false
       ∧ (Banking.tool_check_auth_level bkTableL1 1 (some "SESSION-4")
           Banking.AUTH_LEVEL_2 654321).errorDict =
           some { message := "This operation requires multi-factor authentication. Please verify the OTP we are sending to your phone."
                    ++ " " ++ ("OTP sent to " ++ bkSessionL1.phone),
                  authLevel := some Banking.AUTH_LEVEL_1,
                  nextStep := some "verify_otp", requiresStepUp := false }
       ∧ (tblLookup (Banking.tool_check_auth_level bkTableL1 1 (some "SESSION-4")
             Banking.AUTH_LEVEL_2 654321).table "SESSION-4").map
           Banking.BankSession.otpCode = some (some (toString 654321))
       ∧ (Banking.tool_check_auth_level bkTableL1 1 (some "SESSION-4")
           Banking.AUTH_LEVEL_2 654321).audits.map Banking.BankAudit.action
           = ["OTP_SENT"]) :=
  ⟨by decide, by decide, by decide,
   claim_C4_amended bkTableL1 1 "SESSION-4" bkSessionL1 654321
     (by decide) (by decide) (by decide)⟩

/-- C6, counterexample: on the Banking pump a toolUse frame whose
handler costs 5 steps delays the start of the next inbound event to
step 6; with a free handler (or on the Club pump) the next event starts
at step 1 -- the pump awaits the handler inline, so a slow handler does
delay the next inbound event. -/
theorem claim_C6_counterexample :
    Banking.banking_start_times c6cost5 c6events 0 = [0, 6]
    ∧ Banking.banking_start_times c6cost0 c6events 0 = [0, 1]
    ∧ Club.club_start_times c6clubEvents 0 = [0, 1]
    ∧ (6 : Nat) ≠ 1 := by
  decide

/-- C6, amended: the Club pump spawns tool execution into
`pending_tool_tasks` and reaches event number i at step i whatever any
handler costs, while the Banking pump's toolUse iteration takes
`1 + cost` steps, delaying every later event by the handler's full
cost. -/
theorem claim_C6_amended :
    (∀ (events : List Club.ClubEvent) (t0 : Nat),
       Club.club_start_times events t0 =
         (List.range events.length).map (fun i => t0 + i))
    ∧ (∀ st : Club.ClubStreamState,
       Club.club_step st Club.ClubEvent.contentEndTool =
         { st with pendingToolTasks :=
             st.pendingToolTasks ++ [(st.toolName, st.toolUseId)] })
    ∧ (∀ (cost : String → Nat) (name tid : String)
         (rest : List Banking.BankEvent) (t : Nat),
       Banking.banking_start_times cost
           (Banking.BankEvent.toolUse name tid :: rest) t
         = t :: Banking.banking_start_times cost rest (t + (1 + cost name))) := by
  refine ⟨?_, ?_, ?_⟩
  · intro events
    induction events with
    | nil => intro t0; rfl
    | cons e rest ih =>
      intro t0
      show t0 :: Club.club_start_times rest (t0 + 1) = _
      rw [ih (t0 + 1)]
      simp only [List.length_cons]
      rw [List.range_succ_eq_map, List.map_cons, List.map_map]
      refine congrArg₂ List.cons rfl ?_
      apply List.map_congr_left
      intro a _
      simp [Function.comp]
      omega
  · intro st
    rfl
  · intro cost name tid rest t
    rfl

/-- C7, counterexample: on the Banking pump a tool handler that raises
aborts the whole event pump with the exception -- no structured error
result is sent for the faulting invocation and the following toolUse
frame is never processed, although the same pump handles it fine when
reached. -/
theorem claim_C7_counterexample :
    Banking.banking_pump_sends c7exec c7events = Except.error "boom"
    ∧ Banking.banking_pump_sends c7exec
        [Banking.BankEvent.toolUse "FreezeCardTool" "t2"]
        = Except.ok [("t2", Club.ToolOutcome.payload "ok")] := by
  decide

/-- C7, amended: in the Club agent the dispatcher boundary converts any
handler fault into the structured Tool-execution-failed error result and
always sends exactly one start/result/end triple, and unknown names give
a structured Unsupported-tool result in both agents; in the Banking
agent, however, a handler exception propagates uncaught out of
`_run_tool` and stops the event pump. -/
theorem claim_C7_amended :
    (∀ (exec : Club.ClubTool → Except String Club.ToolOutcome)
       (name tid cn : String) (r : Club.ToolOutcome),
       Club.club_run_tool exec name = Except.ok r →
       Club.club_execute_tool exec name tid cn =
         [Club.ClubSend.toolStart cn tid, Club.ClubSend.toolResult cn r,
          Club.ClubSend.toolContentEnd cn])
    ∧ (∀ (exec : Club.ClubTool → Except String Club.ToolOutcome)
         (name tid cn e : String),
         Club.club_run_tool exec name = Except.error e →
         Club.club_execute_tool exec name tid cn =
           [Club.ClubSend.toolStart cn tid,
            Club.ClubSend.toolResult cn
              (Club.ToolOutcome.errorResult ("Tool execution failed: " ++ e)),
            Club.ClubSend.toolContentEnd cn])
    ∧ (∀ (exec : Club.ClubTool → Except String Club.ToolOutcome)
         (name : String),
         tblLookup Club.tool_handlers (Club.normalizeToolName name) = none →
         Club.club_run_tool exec name =
           Except.ok (Club.ToolOutcome.errorResult ("Unsupported tool: " ++ name)))
    ∧ (∀ (exec : String → Except String Club.ToolOutcome) (name : String),
         Banking.bankingToolKeys.contains (Club.normalizeToolName name) = false →
         Banking.banking_run_tool exec name =
           Except.ok (Club.ToolOutcome.errorResult ("Unsupported tool: " ++ name)))
    ∧ (∀ (exec : String → Except String Club.ToolOutcome)
         (name tid : String) (rest : List Banking.BankEvent) (e : String),
         Banking.banking_run_tool exec name = Except.error e →
         Banking.banking_pump_sends exec
           (Banking.BankEvent.toolUse name tid :: rest) = Except.error e) := by
  refine ⟨?_, ?_, ?_, ?_, ?_⟩
  · intro exec name tid cn r h
    unfold Club.club_execute_tool
    rw [h]
  · intro exec name tid cn e h
    unfold Club.club_execute_tool
    rw [h]
  · intro exec name h
    unfold Club.club_run_tool
    rw [h]
  · intro exec name h
    simp only [Banking.banking_run_tool]
    rw [h]
    simp
  · intro exec name tid rest e h
    unfold Banking.banking_pump_sends
    rw [h]

/-- C7, witness: the amended theorem applied to a raising Club handler
and to the raising Banking balance handler. -/
theorem claim_C7_witness :
    Club.club_run_tool c7clubExec "VerifyMemberTool" = Except.error "boom"
    ∧ Club.club_execute_tool c7clubExec "VerifyMemberTool" "t9" "c9" =
        [Club.ClubSend.toolStart "c9" "t9",
         Club.ClubSend.toolResult "c9"
           (Club.ToolOutcome.errorResult ("Tool execution failed: " ++ "boom")),
         Club.ClubSend.toolContentEnd "c9"]
    ∧ Banking.banking_run_tool c7exec "CheckBalanceTool" = Except.error "boom"
    ∧ Banking.banking_pump_sends c7exec
        (Banking.BankEvent.toolUse "CheckBalanceTool" "t1"
          :: [Banking.BankEvent.toolUse "FreezeCardTool" "t2"])
        = Except.error "boom" :=
  ⟨by decide,
   claim_C7_amended.2.1 c7clubExec "VerifyMemberTool" "t9" "c9" "boom" (by decide),
   by decide,
   claim_C7_amended.2.2.2.2 c7exec "CheckBalanceTool" "t1"
     [Banking.BankEvent.toolUse "FreezeCardTool" "t2"] "boom" (by decide)⟩

/-- A playback iteration never changes the set of pending tool
dispatches. -/
theorem club_play_preserves_tasks (st : Club.ClubStreamState) :
    (Club.play_output_step st).pendingToolTasks = st.pendingToolTasks := by
  unfold Club.play_output_step
  by_cases h : st.bargeIn
  · simp [h]
  · cases hq : st.audioOutputQueue with
    | nil => simp [h, hq]
    | cons c rest => simp [h, hq]

/-- The settlement of the oldest dispatch depends only on the pending
task list. -/
theorem club_complete_eq_of_tasks
    (exec : Club.ClubTool → Except String Club.ToolOutcome)
    (st1 st2 : Club.ClubStreamState)
    (h : st1.pendingToolTasks = st2.pendingToolTasks) :
    (Club.complete_first_task exec st1).2 = (Club.complete_first_task exec st2).2 := by
  unfold Club.complete_first_task
  rw [h]
  cases hq : st2.pendingToolTasks with
  | nil => rfl
  | cons p rest => rfl

/-- C8: the barge-in branch of the playback loop empties the output
audio queue and resets the flag while changing nothing else; pending
tool dispatches survive any playback iteration and settle identically
before or after the flush; and on the spec's three-chunk scenario the
queue empties while the pre-interruption dispatch still settles with
its full start/result/end triple. -/
theorem claim_C8 :
    (∀ st : Club.ClubStreamState, st.bargeIn = true →
       Club.play_output_step st =
         { st with audioOutputQueue := [], bargeIn := false })
    ∧ (∀ st : Club.ClubStreamState,
       (Club.play_output_step st).pendingToolTasks = st.pendingToolTasks)
    ∧ (∀ (exec : Club.ClubTool → Except String Club.ToolOutcome)
         (st : Club.ClubStreamState),
       (Club.complete_first_task exec (Club.play_output_step st)).2 =
         (Club.complete_first_task exec st).2)
    ∧ (c8st1.audioOutputQueue = [1, 2, 3] ∧ c8st1.bargeIn = true
       ∧ c8st1.pendingToolTasks = [("CheckStoreHoorsTool", "t1")]
       ∧ c8st2.audioOutputQueue = [] ∧ c8st2.bargeIn = false
       ∧ c8st2.pendingToolTasks = [("CheckStoreHoorsTool", "t1")]
       ∧ (Club.complete_first_task c8exec c8st2).2 =
           [Club.ClubSend.toolStart "t1" "t1",
            Club.ClubSend.toolResult "t1" (Club.ToolOutcome.payload "result"),
            Club.ClubSend.toolContentEnd "t1"]
       ∧ (Club.complete_first_task c8exec c8st2).1.pendingToolTasks = []) := by
  refine ⟨?_, club_play_preserves_tasks, ?_, ?_⟩
  · intro st h
    simp [Club.play_output_step, h]
  · intro exec st
    exact club_complete_eq_of_tasks exec _ st (club_play_preserves_tasks st)
  · decide

/-- C8, witness: the flush equation applied to the concrete interrupted
state. -/
theorem claim_C8_witness :
    c8st1.bargeIn = true
    ∧ Club.play_output_step c8st1 =
        { c8st1 with audioOutputQueue := [], bargeIn := false } :=
  ⟨by decide, claim_C8.1 c8st1 (by decide)⟩

/-- Normalized tool names contain no space: the normalization deletes
every space character. -/
theorem club_normalize_no_space :
    ∀ (s : String) (c : Char),
      c ∈ (Club.normalizeToolName s).data → c.toNat ≠ 32 := by
  intro s c hc
  simp [Club.normalizeToolName, List.mem_filter] at hc
  exact hc.2

/-- No input normalizes to the spaced registry key. -/
theorem club_normalize_ne_space_key :
    ∀ s : String, Club.normalizeToolName s ≠ "checkstorehours tool" := by
  intro s h
  have h32 := club_normalize_no_space s (Char.ofNat 32)
  rw [h] at h32
  exact h32 (by decide) (by decide)

/-- C10: the Club tool router lowercases and strips every space before
lookup, so no normalized name contains a space; the registry key
checkstorehours-with-a-space is therefore unreachable; the store-hours
handler is selected exactly for inputs normalizing to the misspelled key
checkstorehoorstool; and any input normalizing to the correctly spelled
checkstorehourstool gets the Unsupported-tool error result. -/
theorem claim_C10 :
    (∀ (s : String) (c : Char),
       c ∈ (Club.normalizeToolName s).data → c.toNat ≠ 32)
    ∧ (∀ s : String, Club.normalizeToolName s ≠ "checkstorehours tool")
    ∧ (∀ s : String,
       Club.club_route_tool s = Club.ClubRouted.handled Club.ClubTool.checkStoreHours
         ↔ Club.normalizeToolName s = "checkstorehoorstool")
    ∧ (∀ s : String,
       Club.normalizeToolName s = "checkstorehourstool" →
       Club.club_route_tool s =
         Club.ClubRouted.unsupported ("Unsupported tool: " ++ s)) := by
  refine ⟨club_normalize_no_space, club_normalize_ne_space_key, ?_, ?_⟩
  · intro s
    constructor
    · intro h
      unfold Club.club_route_tool at h
      cases hl : tblLookup Club.tool_handlers (Club.normalizeToolName s) with
      | none => simp [hl] at h
      | some t =>
        simp only [hl] at h
        injection h with h
        subst h
        have hmem := tblLookup_mem_pair (Club.normalizeToolName s)
          Club.ClubTool.checkStoreHours Club.tool_handlers hl
        simp [Club.tool_handlers] at hmem
        rcases hmem with h1 | h2
        · exact absurd h1 (club_normalize_ne_space_key s)
        · exact h2
    · intro h
      unfold Club.club_route_tool
      rw [h]
      rw [(by decide : tblLookup Club.tool_handlers "checkstorehoorstool"
        = some Club.ClubTool.checkStoreHours)]
  · intro s h
    unfold Club.club_route_tool
    rw [h]
    rw [(by decide :
      tblLookup Club.tool_handlers "checkstorehourstool" = (none : Option Club.ClubTool))]

/-- C10, witness: the router evaluated on the misspelled and on the
correctly spelled store-hours tool name, and the normalization evaluated
on a spaced mixed-case input. -/
theorem claim_C10_witness :
    (Char.ofNat 97) ∈ (Club.normalizeToolName "A B").data
    ∧ (Char.ofNat 97).toNat ≠ 32
    ∧ Club.normalizeToolName "xyz" ≠ "checkstorehours tool"
    ∧ Club.club_route_tool "CheckStoreHoorsTool"
        = Club.ClubRouted.handled Club.ClubTool.checkStoreHours
    ∧ Club.normalizeToolName "CheckStoreHoursTool" = "checkstorehourstool"
    ∧ Club.club_route_tool "CheckStoreHoursTool"
        = Club.ClubRouted.unsupported ("Unsupported tool: " ++ "CheckStoreHoursTool") :=
  ⟨by decide,
   claim_C10.1 "A B" (Char.ofNat 97) (by decide),
   claim_C10.2.1 "xyz",
   (claim_C10.2.2.1 "CheckStoreHoorsTool").mpr (by decide),
   by decide,
   claim_C10.2.2.2 "CheckStoreHoursTool" (by decide)⟩
